import Mathlib

/-!
Shallow embedding of the VenePagos SDK payment-session correlation engine
(`src/index.js`).  The embedding gives pure state-passing translations of:

* the session registry (the `activePaymentWindows` Map) and its settlement
  paths inside `openPaymentPopup` (the `checkClosed` interval callback and
  the 30-minute safety timeout),
* the cross-context message handler installed by `_setupMessageListener`
  and the three routing targets `_handlePaymentSuccess`,
  `_handlePaymentError`, `_handlePaymentCancel`,
* teardown: `closeAllPaymentWindows` and `destroy`,
* the event bus: `on`, `off`, `_emitEvent`.

Promise settlement is modelled as an explicit event trace: resolving or
rejecting a session's promise appends a `(sessionId, Outcome)` pair to the
`settled` list of a step result.  An uncaught JavaScript `TypeError`
escaping a handler is modelled by the `raised` flag.  Callback functions
are identified by numeric ids (reference equality); their behaviour when
invoked is an environment `Nat → Except String Unit`.
-/

namespace VenePagos

/-- Character-list prefix test used to model JavaScript substring search. -/
def startsWithChars : List Char → List Char → Bool
  | [], _ => true
  | _ :: _, [] => false
  | a :: as, b :: bs => a == b && startsWithChars as bs

/-- Substring occurrence test on character lists. -/
def includesChars (sub : List Char) : List Char → Bool
  | [] => startsWithChars sub []
  | c :: rest => startsWithChars sub (c :: rest) || includesChars sub rest

/-- Models `s.includes(sub)`: `stringIncludes s sub`, from
`_setupMessageListener`'s origin check `event.origin.includes('venepagos')`. -/
def stringIncludes (s sub : String) : Bool :=
  includesChars sub.data s.data

/-- What the engine delivers to a session's promise: `resolved` models a call
to the stored `resolve` callback (with the `reference` field of the payload
and whether the payload carried `closedManually: true`), `rejected` models a
call to `reject` with an `Error` of the given message. -/
inductive Outcome where
  | resolved (reference : Option String) (closedManually : Bool)
  | rejected (message : String)
  deriving DecidableEq, Repr

/-- One entry of `activePaymentWindows` (sans the window handle and the
resolve/reject callbacks, which the model tracks separately; both callbacks
are always set at registration, line 126 of `src/index.js`). -/
structure SessionEntry where
  url : String
  timestamp : Nat
  deriving DecidableEq, Repr

/-- One element of `this.eventListeners`: `{ event, callback }` where the
callback function is identified by a numeric id (reference equality). -/
structure Listener where
  event : String
  callback : Nat
  deriving DecidableEq, Repr

/-- The mutable state of one `VenePagosSDK` instance, as far as the
correlation engine is concerned.

* `registry` — the `activePaymentWindows` Map (insertion order preserved);
* `windows` — per-session window handles, `true` = `popup.closed`;
* `pollActive` — session ids whose `checkClosed` interval has not been
  cleared by `clearInterval`;
* `deadlinePending` — session ids whose 30-minute `setTimeout` has not yet
  fired (the code never clears it);
* `eventListeners` — the event-bus subscription list;
* `storedReference` — the `localStorage` slot `'lastPaymentReference'`;
* `messageListenerActive` — whether the `message` listener added by
  `_setupMessageListener` is still attached to `window`. -/
structure EngineState where
  registry : List (Nat × SessionEntry)
  windows : List (Nat × Bool)
  pollActive : List Nat
  deadlinePending : List Nat
  eventListeners : List Listener
  storedReference : Option String
  messageListenerActive : Bool
  deriving DecidableEq, Repr

/-- Observable effects of one engine step: the successor state, the promise
settlements performed (in order), the event-bus callbacks invoked (event
name and callback id, in order), and whether an uncaught exception escaped
the step. -/
structure StepResult where
  state : EngineState
  settled : List (Nat × Outcome)
  busCalls : List (String × Nat)
  raised : Bool
  deriving DecidableEq, Repr

/-- A step that changes nothing, settles nothing and calls nobody. -/
def noop (s : EngineState) : StepResult :=
  { state := s, settled := [], busCalls := [], raised := false }

/-- Presence test `activePaymentWindows.has(id)` / truthiness of
`activePaymentWindows.get(id)` (Map keys are unique, so first match). -/
def hasSession : List (Nat × SessionEntry) → Nat → Bool
  | [], _ => false
  | p :: rest, id => p.1 == id || hasSession rest id

/-- Models `activePaymentWindows.delete(id)`. -/
def deleteSession (registry : List (Nat × SessionEntry)) (id : Nat) :
    List (Nat × SessionEntry) :=
  registry.filter (fun p => decide (p.1 ≠ id))

/-- Reads `popup.closed` for the window of session `id` (`false` if untracked). -/
def windowClosed : List (Nat × Bool) → Nat → Bool
  | [], _ => false
  | p :: rest, id => if p.1 == id then p.2 else windowClosed rest id

/-- Whether session `id` has a tracked window handle at all. -/
def hasWindow : List (Nat × Bool) → Nat → Bool
  | [], _ => false
  | p :: rest, id => p.1 == id || hasWindow rest id

/-- Performs `popup.close()` on the window of session `id`. -/
def closeWindow (ws : List (Nat × Bool)) (id : Nat) : List (Nat × Bool) :=
  ws.map (fun p => if p.1 == id then (p.1, true) else p)

/-- JavaScript truthiness of a nullable string (`null` and `''` are falsy):
the test `if (savedReference)` on the `localStorage` value. -/
def jsTruthyStr : Option String → Bool
  | none => false
  | some s => !s.isEmpty

/-- Evaluates `x || dflt` for a possibly-absent, possibly-empty string `x`
(models `data.error || 'Error en el pago'`). -/
def jsOrDefault (x : Option String) (dflt : String) : String :=
  match x with
  | some s => if s.isEmpty then dflt else s
  | none => dflt

/-- The `data` body of a payment notification: `{reference?, error?}`. -/
structure MessageData where
  reference : Option String
  error : Option String
  deriving DecidableEq, Repr

/-- The whole notification payload `event.data`: `{type?, data?}`.
`none` at either level models `undefined`. -/
structure MessageBody where
  type : Option String
  data : Option MessageData
  deriving DecidableEq, Repr

/-- The subscribers `_emitEvent(event, …)` will invoke: the listener list
filtered by event name, in registration order (lines 378–381). -/
def busTargets (listeners : List Listener) (event : String) :
    List (String × Nat) :=
  (listeners.filter (fun l => l.event == event)).map (fun l => (event, l.callback))

/-- Models `_handlePaymentSuccess(data)` (lines 338–354): emit `'success'`, then
for every registry entry call `resolve({success, reference: data.reference,
status: 'completed', data})` and delete the entry.  Every entry has its
`resolve` set, so the `if (paymentData.resolve)` guard always passes.  When
`data` is `undefined` the first iteration's access `data.reference` throws a
`TypeError` before any entry is settled or deleted; with an empty registry
the `forEach` body never runs and nothing throws. -/
def handlePaymentSuccess (s : EngineState) (data : Option MessageData) :
    StepResult :=
  let calls := busTargets s.eventListeners "success"
  match data with
  | some d =>
    { state := { s with registry := [] },
      settled := s.registry.map (fun p => (p.1, Outcome.resolved d.reference false)),
      busCalls := calls, raised := false }
  | none =>
    if s.registry.isEmpty then
      { state := s, settled := [], busCalls := calls, raised := false }
    else
      { state := s, settled := [], busCalls := calls, raised := true }

/-- Models `_handlePaymentError(data)` (lines 356–365): emit `'error'`, then reject
every registry entry with `Error(data.error || 'Error en el pago')` and
delete it; `data.error` on an `undefined` body throws as in
`handlePaymentSuccess`. -/
def handlePaymentError (s : EngineState) (data : Option MessageData) :
    StepResult :=
  let calls := busTargets s.eventListeners "error"
  match data with
  | some d =>
    { state := { s with registry := [] },
      settled := s.registry.map
        (fun p => (p.1, Outcome.rejected (jsOrDefault d.error "Error en el pago"))),
      busCalls := calls, raised := false }
  | none =>
    if s.registry.isEmpty then
      { state := s, settled := [], busCalls := calls, raised := false }
    else
      { state := s, settled := [], busCalls := calls, raised := true }

/-- Models `_handlePaymentCancel(data)` (lines 367–376): emit `'cancel'`, then
reject every registry entry with a fixed message and delete it; the `data`
body is never dereferenced, so a missing body cannot throw. -/
def handlePaymentCancel (s : EngineState) (_data : Option MessageData) :
    StepResult :=
  { state := { s with registry := [] },
    settled := s.registry.map
      (fun p => (p.1, Outcome.rejected "Pago cancelado por el usuario")),
    busCalls := busTargets s.eventListeners "cancel", raised := false }

/-- The `switch (type)` dispatch of the message handler (lines 319–329):
the three recognized tags route to their handlers, anything else falls
through. -/
def routeMessage (s : EngineState) (type : Option String)
    (data : Option MessageData) : StepResult :=
  match type with
  | some "PAYMENT_SUCCESS" => handlePaymentSuccess s data
  | some "PAYMENT_ERROR" => handlePaymentError s data
  | some "PAYMENT_CANCEL" => handlePaymentCancel s data
  | _ => noop s

/-- The `message` handler closure of `_setupMessageListener` (lines
312–330): drop the message unless the sender origin contains
`'venepagos'`; destructure `const {type, data} = event.data || {}`; switch
on `type`, ignoring unrecognized values. -/
def messageHandler (s : EngineState) (origin : String)
    (body : Option MessageBody) : StepResult :=
  if stringIncludes origin "venepagos" then
    let b := body.getD { type := none, data := none }
    routeMessage s b.type b.data
  else noop s

/-- One firing of the `checkClosed` interval callback for session `id`
(lines 135–158).  The callback only runs while its interval is scheduled
(`id ∈ pollActive`).  If `popup.closed`: `clearInterval`, then if the
session is still registered, delete it and consult
`localStorage.getItem('lastPaymentReference')` — a truthy value is consumed
(`removeItem`) and the promise resolved with it and `closedManually: true`;
otherwise the promise is rejected as closed by the user (and the slot is
left untouched). -/
def checkClosedTick (s : EngineState) (id : Nat) : StepResult :=
  if id ∈ s.pollActive then
    if windowClosed s.windows id then
      let s1 := { s with pollActive := s.pollActive.filter (fun x => decide (x ≠ id)) }
      if hasSession s1.registry id then
        let s2 := { s1 with registry := deleteSession s1.registry id }
        if jsTruthyStr s2.storedReference then
          { state := { s2 with storedReference := none },
            settled := [(id, Outcome.resolved s2.storedReference true)],
            busCalls := [], raised := false }
        else
          { state := s2,
            settled := [(id, Outcome.rejected "Ventana de pago cerrada por el usuario")],
            busCalls := [], raised := false }
      else noop s1
    else noop s
  else noop s

/-- The 30-minute safety `setTimeout` callback for session `id` (lines
160–168).  It fires at most once (`id` leaves `deadlinePending`); if the
session is still registered it clears the poll interval, force-closes the
window, deletes the session and rejects its promise with the timeout
error; otherwise it does nothing further. -/
def deadlineFire (s : EngineState) (id : Nat) : StepResult :=
  if id ∈ s.deadlinePending then
    let s0 := { s with deadlinePending := s.deadlinePending.filter (fun x => decide (x ≠ id)) }
    if hasSession s0.registry id then
      { state := { s0 with
          pollActive := s0.pollActive.filter (fun x => decide (x ≠ id)),
          windows := closeWindow s0.windows id,
          registry := deleteSession s0.registry id },
        settled := [(id, Outcome.rejected "Timeout: El pago excedió el tiempo límite")],
        busCalls := [], raised := false }
    else noop s0
  else noop s

/-- Models `closeAllPaymentWindows` (lines 283–290): for every registry entry,
close its window if still open; then `activePaymentWindows.clear()`.  No
`resolve` or `reject` is invoked. -/
def closeAllPaymentWindows (s : EngineState) : StepResult :=
  { state := { s with
      windows := s.windows.map
        (fun p => if hasSession s.registry p.1 then (p.1, true) else p),
      registry := [] },
    settled := [], busCalls := [], raised := false }

/-- Models `destroy` (lines 397–409): `closeAllPaymentWindows()`, detach the
`message` listener, clear `eventListeners` and clear the registry again. -/
def destroy (s : EngineState) : StepResult :=
  let r := closeAllPaymentWindows s
  { r with state := { r.state with
      messageListenerActive := false,
      eventListeners := [],
      registry := [] } }

/-- The logically-concurrent sources that race to settle a session:
the poll tick, the deadline timer, and the three broker routes. -/
inductive SettleSource where
  | poll
  | deadline
  | brokerSuccess (d : Option MessageData)
  | brokerError (d : Option MessageData)
  | brokerCancel (d : Option MessageData)
  deriving DecidableEq, Repr

/-- Dispatch a settlement source against the engine state; `id` is the
session the per-session timers belong to (the broker routes broadcast and
ignore it). -/
def runSource (s : EngineState) (id : Nat) : SettleSource → StepResult
  | .poll => checkClosedTick s id
  | .deadline => deadlineFire s id
  | .brokerSuccess d => handlePaymentSuccess s d
  | .brokerError d => handlePaymentError s d
  | .brokerCancel d => handlePaymentCancel s d

/-- A caller-supplied event argument: a function (identified by id) or any
non-function value, as distinguished by `typeof callback !== 'function'`. -/
inductive JsArg where
  | func (callback : Nat)
  | nonFunc (description : String)
  deriving DecidableEq, Repr

/-- Models `on(event, callback)` (lines 261–267; `on` is reserved in Lean, hence
the name `onListener`): throws synchronously for a non-function callback
(the returned error message), otherwise pushes the pair onto the listener
list.  The first component is the listener list after the call. -/
def onListener (listeners : List Listener) (event : String) (callback : JsArg) :
    List Listener × Option String :=
  match callback with
  | .nonFunc _ => (listeners, some "El callback debe ser una función")
  | .func c => (listeners ++ [{ event := event, callback := c }], none)

/-- Models `off(event, callback)` (lines 274–278): keep exactly the listeners that
do not match both the event and the callback. -/
def off (listeners : List Listener) (event : String) (callback : Nat) :
    List Listener :=
  listeners.filter (fun l => !(l.event == event && l.callback == callback))

/-- Models `_emitEvent(event, data)` (lines 378–388): filter the listener list by
event name, invoke each callback inside `try { … } catch { console.error }`.
`env` gives each callback's behaviour on this payload; the result pairs
each invoked callback with the error it raised (`none` if it returned
normally) — raising is logged, never propagated. -/
def emitEvent (listeners : List Listener) (env : Nat → Except String Unit)
    (event : String) : List (Nat × Option String) :=
  (listeners.filter (fun l => l.event == event)).map
    (fun l => (l.callback,
      match env l.callback with
      | .ok _ => none
      | .error e => some e))

/-! ### Sample states for concrete witnesses -/

/-- A registry entry as created at line 126 of `src/index.js`. -/
def sampleEntry : SessionEntry :=
  { url := "https://venepagos.com.ve/pay/abc", timestamp := 0 }

/-- An engine with one pending session (id 1): window open, poll interval
and deadline timer scheduled, no stored reference. -/
def sampleState : EngineState :=
  { registry := [(1, sampleEntry)], windows := [(1, false)],
    pollActive := [1], deadlinePending := [1], eventListeners := [],
    storedReference := none, messageListenerActive := true }

/-- Two identical subscriptions of callback 7 to `'success'`. -/
def dupListeners : List Listener :=
  [{ event := "success", callback := 7 }, { event := "success", callback := 7 }]

/-- A mixed subscription list with duplicates of (`'success'`, 7). -/
def mixedListeners : List Listener :=
  [{ event := "success", callback := 7 }, { event := "error", callback := 7 },
   { event := "success", callback := 8 }, { event := "success", callback := 7 }]

/-! ### Helper lemmas -/

/-- Number of settlement events delivered to session `id`. -/
def settleCount (id : Nat) (evs : List (Nat × Outcome)) : Nat :=
  evs.countP (fun ev => ev.1 == id)

theorem settleCount_nil (id : Nat) : settleCount id [] = 0 := rfl

theorem settleCount_append (id : Nat) (l₁ l₂ : List (Nat × Outcome)) :
    settleCount id (l₁ ++ l₂) = settleCount id l₁ + settleCount id l₂ :=
  List.countP_append _ l₁ l₂

theorem settleCount_self (id : Nat) (o : Outcome) :
    settleCount id [(id, o)] = 1 := by
  simp [settleCount, List.countP_cons]

theorem hasSession_eq_false_iff (r : List (Nat × SessionEntry)) (id : Nat) :
    hasSession r id = false ↔ id ∉ r.map Prod.fst := by
  induction r with
  | nil => simp [hasSession]
  | cons p rest ih =>
    simp only [hasSession, Bool.or_eq_false_iff, beq_eq_false_iff_ne, ih,
      List.map_cons, List.mem_cons, not_or]
    constructor
    · rintro ⟨h1, h2⟩
      exact ⟨fun he => h1 he.symm, h2⟩
    · rintro ⟨h1, h2⟩
      exact ⟨fun he => h1 he.symm, h2⟩

theorem hasSession_deleteSession (r : List (Nat × SessionEntry)) (id : Nat) :
    hasSession (deleteSession r id) id = false := by
  rw [hasSession_eq_false_iff]
  intro hmem
  rcases List.mem_map.mp hmem with ⟨p, hp, hfst⟩
  rcases List.mem_filter.mp hp with ⟨-, hne⟩
  exact (of_decide_eq_true hne) hfst

theorem settleCount_broadcast_eq_zero (id : Nat) (l : List (Nat × SessionEntry))
    (f : Nat × SessionEntry → Outcome) (h : id ∉ l.map Prod.fst) :
    settleCount id (l.map (fun p => (p.1, f p))) = 0 := by
  unfold settleCount
  rw [List.countP_map, List.countP_eq_zero]
  intro p hp hbeq
  exact h (List.mem_map.mpr ⟨p, hp, eq_of_beq hbeq⟩)

theorem settleCount_broadcast_le_one (id : Nat) (l : List (Nat × SessionEntry))
    (f : Nat × SessionEntry → Outcome) (h : (l.map Prod.fst).Nodup) :
    settleCount id (l.map (fun p => (p.1, f p))) ≤ 1 := by
  induction l with
  | nil => simp [settleCount]
  | cons p rest ih =>
    rw [List.map_cons] at h
    rcases List.nodup_cons.mp h with ⟨hnotmem, hrest⟩
    unfold settleCount at ih ⊢
    rw [List.map_cons, List.countP_cons]
    by_cases hb : p.1 = id
    · subst hb
      have hz : settleCount p.1 (rest.map (fun q => (q.1, f q))) = 0 :=
        settleCount_broadcast_eq_zero p.1 rest f hnotmem
      unfold settleCount at hz
      simp [hz]
    · simp only [Function.comp]
      have : ((p.1, f p).1 == id) = false := by
        simp [hb]
      simp only [this, if_false]
      simpa using ih hrest


theorem nodup_deleteSession (r : List (Nat × SessionEntry)) (id : Nat)
    (h : (r.map Prod.fst).Nodup) :
    ((deleteSession r id).map Prod.fst).Nodup :=
  ((List.filter_sublist r).map Prod.fst).nodup h

theorem checkClosedTick_cases (s : EngineState) (id : Nat) :
    ((checkClosedTick s id).settled = []
        ∧ (checkClosedTick s id).state.registry = s.registry)
    ∨ (hasSession s.registry id = true
        ∧ (∃ o, (checkClosedTick s id).settled = [(id, o)])
        ∧ (checkClosedTick s id).state.registry = deleteSession s.registry id) := by
  simp only [checkClosedTick]
  split_ifs with h1 h2 h3 h4
  · exact Or.inr ⟨h3, ⟨_, rfl⟩, rfl⟩
  · exact Or.inr ⟨h3, ⟨_, rfl⟩, rfl⟩
  · exact Or.inl ⟨rfl, rfl⟩
  · exact Or.inl ⟨rfl, rfl⟩
  · exact Or.inl ⟨rfl, rfl⟩

theorem deadlineFire_cases (s : EngineState) (id : Nat) :
    ((deadlineFire s id).settled = []
        ∧ (deadlineFire s id).state.registry = s.registry)
    ∨ (hasSession s.registry id = true
        ∧ (∃ o, (deadlineFire s id).settled = [(id, o)])
        ∧ (deadlineFire s id).state.registry = deleteSession s.registry id) := by
  simp only [deadlineFire]
  split_ifs with h1 h2
  · exact Or.inr ⟨h2, ⟨_, rfl⟩, rfl⟩
  · exact Or.inl ⟨rfl, rfl⟩
  · exact Or.inl ⟨rfl, rfl⟩

theorem handleSuccess_cases (s : EngineState) (d : Option MessageData) :
    (∃ f : Nat × SessionEntry → Outcome, (handlePaymentSuccess s d).settled = s.registry.map (fun p => (p.1, f p))
        ∧ (handlePaymentSuccess s d).state.registry = [])
    ∨ ((handlePaymentSuccess s d).settled = []
        ∧ (handlePaymentSuccess s d).state.registry = s.registry) := by
  cases d with
  | some d => exact Or.inl ⟨fun p => Outcome.resolved d.reference false, rfl, rfl⟩
  | none =>
    by_cases h : s.registry.isEmpty = true
    · refine Or.inr ⟨?_, ?_⟩ <;> simp [handlePaymentSuccess, h]
    · refine Or.inr ⟨?_, ?_⟩ <;> simp [handlePaymentSuccess, h]

theorem handleError_cases (s : EngineState) (d : Option MessageData) :
    (∃ f : Nat × SessionEntry → Outcome, (handlePaymentError s d).settled = s.registry.map (fun p => (p.1, f p))
        ∧ (handlePaymentError s d).state.registry = [])
    ∨ ((handlePaymentError s d).settled = []
        ∧ (handlePaymentError s d).state.registry = s.registry) := by
  cases d with
  | some d =>
    exact Or.inl ⟨fun p => Outcome.rejected (jsOrDefault d.error "Error en el pago"), rfl, rfl⟩
  | none =>
    by_cases h : s.registry.isEmpty = true
    · refine Or.inr ⟨?_, ?_⟩ <;> simp [handlePaymentError, h]
    · refine Or.inr ⟨?_, ?_⟩ <;> simp [handlePaymentError, h]

theorem runSource_cases (s : EngineState) (id : Nat) (src : SettleSource) :
    ((runSource s id src).settled = []
        ∧ (runSource s id src).state.registry = s.registry)
    ∨ (hasSession s.registry id = true
        ∧ (∃ o, (runSource s id src).settled = [(id, o)])
        ∧ (runSource s id src).state.registry = deleteSession s.registry id)
    ∨ (∃ f : Nat × SessionEntry → Outcome, (runSource s id src).settled = s.registry.map (fun p => (p.1, f p))
        ∧ (runSource s id src).state.registry = []) := by
  cases src with
  | poll =>
    rcases checkClosedTick_cases s id with h | h
    · exact Or.inl h
    · exact Or.inr (Or.inl h)
  | deadline =>
    rcases deadlineFire_cases s id with h | h
    · exact Or.inl h
    · exact Or.inr (Or.inl h)
  | brokerSuccess d =>
    rcases handleSuccess_cases s d with h | h
    · exact Or.inr (Or.inr h)
    · exact Or.inl h
  | brokerError d =>
    rcases handleError_cases s d with h | h
    · exact Or.inr (Or.inr h)
    · exact Or.inl h
  | brokerCancel d =>
    exact Or.inr (Or.inr
      ⟨fun _ => Outcome.rejected "Pago cancelado por el usuario", rfl, rfl⟩)

theorem settleCount_runSource_le_one (s : EngineState) (id : Nat)
    (src : SettleSource) (hnd : (s.registry.map Prod.fst).Nodup) :
    settleCount id (runSource s id src).settled ≤ 1 := by
  rcases runSource_cases s id src with hc | hc | hc
  · rw [hc.1]
    simp [settleCount]
  · rcases hc.2.1 with ⟨o, ho⟩
    rw [ho, settleCount_self]
  · rcases hc with ⟨f, hs, -⟩
    rw [hs]
    exact settleCount_broadcast_le_one id _ f hnd

theorem settleCount_runSource_absent (s : EngineState) (id : Nat)
    (src : SettleSource) (h : hasSession s.registry id = false) :
    settleCount id (runSource s id src).settled = 0 := by
  rcases runSource_cases s id src with hc | hc | hc
  · rw [hc.1]
    rfl
  · simp [hc.1] at h
  · rcases hc with ⟨f, hs, -⟩
    rw [hs]
    exact settleCount_broadcast_eq_zero id _ f ((hasSession_eq_false_iff _ _).mp h)

theorem hasSession_after_settle (s : EngineState) (id : Nat) (src : SettleSource)
    (h : 1 ≤ settleCount id (runSource s id src).settled) :
    hasSession (runSource s id src).state.registry id = false := by
  rcases runSource_cases s id src with hc | hc | hc
  · rw [hc.1] at h
    simp [settleCount] at h
  · rw [hc.2.2]
    exact hasSession_deleteSession _ _
  · rcases hc with ⟨f, -, hr⟩
    rw [hr]
    rfl

theorem nodup_runSource (s : EngineState) (id : Nat) (src : SettleSource)
    (hnd : (s.registry.map Prod.fst).Nodup) :
    (((runSource s id src).state.registry).map Prod.fst).Nodup := by
  rcases runSource_cases s id src with hc | hc | hc
  · rw [hc.2]
    exact hnd
  · rw [hc.2.2]
    exact nodup_deleteSession _ _ hnd
  · rcases hc with ⟨f, -, hr⟩
    rw [hr]
    exact List.nodup_nil

/-- C1: settlement of a session is one-shot.  For any well-formed registry
(no duplicate session ids), any two settlement attempts — poll tick,
deadline timer or any broker route, in any order — deliver at most one
settlement event to a given session's promise; moreover an attempt while
the id is absent from the registry settles nothing, and for the per-session
sources (poll tick, deadline timer) it leaves the registry untouched. -/
theorem settlement_one_shot (s : EngineState) (id : Nat)
    (src₁ src₂ : SettleSource) (hnd : (s.registry.map Prod.fst).Nodup) :
    settleCount id ((runSource s id src₁).settled
        ++ (runSource (runSource s id src₁).state id src₂).settled) ≤ 1
    ∧ (hasSession s.registry id = false →
        settleCount id (runSource s id src₁).settled = 0
        ∧ ((src₁ = SettleSource.poll ∨ src₁ = SettleSource.deadline) →
            (runSource s id src₁).state.registry = s.registry)) := by
  constructor
  · rw [settleCount_append]
    rcases Nat.eq_zero_or_pos (settleCount id (runSource s id src₁).settled)
      with hz | hp
    · have h2 := settleCount_runSource_le_one (runSource s id src₁).state id src₂
        (nodup_runSource s id src₁ hnd)
      omega
    · have h1 := settleCount_runSource_le_one s id src₁ hnd
      have habs := hasSession_after_settle s id src₁ hp
      have h2 := settleCount_runSource_absent _ id src₂ habs
      omega
  · intro habs
    refine ⟨settleCount_runSource_absent s id src₁ habs, ?_⟩
    rintro (rfl | rfl)
    · rcases checkClosedTick_cases s id with h | h
      · exact h.2
      · simp [h.1] at habs
    · rcases deadlineFire_cases s id with h | h
      · exact h.2
      · simp [h.1] at habs

/-- Witness for `settlement_one_shot`: the sample engine, session id 2
(absent), poll tick then deadline timer. -/
theorem settlement_one_shot_wit :
    settleCount 2 ((runSource sampleState 2 SettleSource.poll).settled
        ++ (runSource (runSource sampleState 2 SettleSource.poll).state 2
              SettleSource.deadline).settled) ≤ 1
    ∧ (hasSession sampleState.registry 2 = false →
        settleCount 2 (runSource sampleState 2 SettleSource.poll).settled = 0
        ∧ ((SettleSource.poll = SettleSource.poll
              ∨ SettleSource.poll = SettleSource.deadline) →
            (runSource sampleState 2 SettleSource.poll).state.registry
              = sampleState.registry)) :=
  settlement_one_shot sampleState 2 SettleSource.poll SettleSource.deadline
    (by decide)

/-- C5: a message whose sender origin does not contain `'venepagos'` is a
complete no-op: the handler leaves the whole engine state (registry,
pending promises, subscriber list, stored reference) unchanged, settles
nothing, invokes no subscriber callback and raises nothing. -/
theorem foreign_origin_noop (s : EngineState) (origin : String)
    (body : Option MessageBody)
    (h : stringIncludes origin "venepagos" = false) :
    messageHandler s origin body = noop s := by
  unfold messageHandler
  rw [h]
  simp

/-- Witness for `foreign_origin_noop`: a forged `PAYMENT_SUCCESS` from
another page context is dropped with no effect. -/
theorem foreign_origin_noop_wit :
    messageHandler sampleState "https://evil.example.com"
        (some { type := some "PAYMENT_SUCCESS",
                data := some { reference := some "R123", error := none } })
      = noop sampleState :=
  foreign_origin_noop sampleState "https://evil.example.com" _ (by decide)

/-- C9: `_emitEvent` invokes exactly the subscribers registered for the
published event type, in registration order; which callbacks are invoked is
independent of the callbacks' behaviour (a raising callback is caught, so
it prevents neither the remaining invocations nor the publisher from
continuing), and the invocation list agrees with the engine-level
`busTargets`. -/
theorem publish_order_isolation (L : List Listener) (e : String)
    (env env' : Nat → Except String Unit) :
    (emitEvent L env e).map Prod.fst
        = (L.filter (fun l => l.event == e)).map (fun l => l.callback)
    ∧ (emitEvent L env e).map Prod.fst = (emitEvent L env' e).map Prod.fst
    ∧ (emitEvent L env e).map Prod.fst = (busTargets L e).map Prod.snd := by
  refine ⟨?_, ?_, ?_⟩ <;>
    simp [emitEvent, busTargets, List.map_map, Function.comp]

/-- C10: `on(event, callback)` throws its validation error for every
non-function argument, leaving the subscriber list untouched; for every
function argument it appends the pair at the end (so nothing already
registered is dropped or reordered), and a subsequent publish of that event
invokes the new callback after all previously registered ones. -/
theorem on_validation (L : List Listener) (e : String) :
    (∀ d : String, onListener L e (JsArg.nonFunc d)
        = (L, some "El callback debe ser una función"))
    ∧ (∀ c : Nat, onListener L e (JsArg.func c)
        = (L ++ [{ event := e, callback := c }], none))
    ∧ (∀ c : Nat, ∀ env : Nat → Except String Unit,
        (emitEvent (onListener L e (JsArg.func c)).1 env e).map Prod.fst
          = ((emitEvent L env e).map Prod.fst) ++ [c]) := by
  refine ⟨fun d => rfl, fun c => rfl, fun c env => ?_⟩
  simp [onListener, emitEvent, List.filter_append, List.map_append]

/-- C3 counterexample: with two identical (`'success'`, callback 7)
subscriptions, a single `off('success', 7)` removes both — the result has
length 0, not the length 1 the claim ("removes exactly one matching pair,
leaving the other duplicates registered") requires. -/
theorem off_duplicate_counterexample :
    off dupListeners "success" 7 = []
    ∧ (off dupListeners "success" 7).length ≠ 1 := by
  decide

/-- C3 amended: one call to `off(event, handler)` removes **every**
subscription matching the pair (the matching pair no longer occurs, while
every non-matching subscription keeps its exact multiplicity and relative
order), and a subsequent publish of that event type invokes none of the
removed subscriptions. -/
theorem off_removes_all (L : List Listener) (e : String) (c : Nat) :
    { event := e, callback := c } ∉ off L e c
    ∧ (off L e c).Sublist L
    ∧ (∀ l : Listener, ¬(l.event = e ∧ l.callback = c) →
        (off L e c).count l = L.count l)
    ∧ (∀ env : Nat → Except String Unit,
        ((emitEvent (off L e c) env e).map Prod.fst).count c = 0) := by
  refine ⟨?_, List.filter_sublist L, ?_, ?_⟩
  · intro hmem
    rcases List.mem_filter.mp hmem with ⟨-, hkeep⟩
    simp at hkeep
  · intro l hl
    have hp : (!(l.event == e && l.callback == c)) = true := by
      rcases Decidable.em (l.event = e) with he | he
      · rcases Decidable.em (l.callback = c) with hc | hc
        · exact absurd ⟨he, hc⟩ hl
        · simp [hc]
      · simp [he]
    exact List.count_filter hp
  · intro env
    rw [List.count_eq_zero]
    intro hmem
    rcases List.mem_map.mp hmem with ⟨pair, hpair, hfst⟩
    unfold emitEvent at hpair
    rcases List.mem_map.mp hpair with ⟨l, hlf, hleq⟩
    rcases List.mem_filter.mp hlf with ⟨hloff, hlev⟩
    rcases List.mem_filter.mp hloff with ⟨-, hkeep⟩
    have hcb : l.callback = c := by
      rw [← hfst, ← hleq]
    simp [hlev, hcb] at hkeep

/-- Witness for `off_removes_all`: the mixed list with duplicated
(`'success'`, 7): the count of the untouched (`'error'`, 7) pair is
preserved and a publish of `'success'` never reaches callback 7. -/
theorem off_removes_all_wit :
    (off mixedListeners "success" 7).count { event := "error", callback := 7 }
        = mixedListeners.count { event := "error", callback := 7 }
    ∧ ((emitEvent (off mixedListeners "success" 7)
          (fun _ => Except.ok ()) "success").map Prod.fst).count 7 = 0 :=
  ⟨(off_removes_all mixedListeners "success" 7).2.2.1 _ (by decide),
   (off_removes_all mixedListeners "success" 7).2.2.2 _⟩

theorem windowClosed_closeWindow (ws : List (Nat × Bool)) (id : Nat)
    (h : hasWindow ws id = true) :
    windowClosed (closeWindow ws id) id = true := by
  induction ws with
  | nil => cases h
  | cons p rest ih =>
    by_cases hb : p.1 = id
    · simp [closeWindow, windowClosed, hb]
    · have hrest : hasWindow rest id = true := by
        simpa [hasWindow, hb] using h
      have hx := ih hrest
      simpa [closeWindow, windowClosed, hb] using hx

theorem windowClosed_closeAllAux (r : List (Nat × SessionEntry))
    (ws : List (Nat × Bool)) (id : Nat)
    (hreg : hasSession r id = true) (hwin : hasWindow ws id = true) :
    windowClosed (ws.map (fun p => if hasSession r p.1 then (p.1, true) else p))
        id = true := by
  induction ws with
  | nil => cases hwin
  | cons p rest ih =>
    by_cases hb : p.1 = id
    · subst hb
      simp [windowClosed, hreg]
    · have hrest : hasWindow rest id = true := by
        simpa [hasWindow, hb] using hwin
      have hx := ih hrest
      by_cases hr : hasSession r p.1 = true
      · simpa [windowClosed, hb, hr] using hx
      · simpa [windowClosed, hb, hr] using hx

theorem messageHandler_matched (s : EngineState) (origin : String)
    (body : Option MessageBody)
    (horigin : stringIncludes origin "venepagos" = true) :
    messageHandler s origin body
      = routeMessage s (body.getD { type := none, data := none }).type
          (body.getD { type := none, data := none }).data := by
  unfold messageHandler
  rw [horigin]
  rfl

/-- C4: a recognized notification from a matching origin broadcasts.
`PAYMENT_SUCCESS` resolves every currently pending session (not only the
sender's) as completed with the notification's `reference`, publishes a
`'success'` bus event and empties the registry; `PAYMENT_ERROR` and
`PAYMENT_CANCEL` likewise broadcast-reject every pending session and
publish `'error'` / `'cancel'`. -/
theorem broker_broadcast (s : EngineState) (origin : String) (d : MessageData)
    (horigin : stringIncludes origin "venepagos" = true) :
    messageHandler s origin (some { type := some "PAYMENT_SUCCESS", data := some d })
      = { state := { s with registry := [] },
          settled := s.registry.map (fun p => (p.1, Outcome.resolved d.reference false)),
          busCalls := busTargets s.eventListeners "success", raised := false }
    ∧ messageHandler s origin (some { type := some "PAYMENT_ERROR", data := some d })
      = { state := { s with registry := [] },
          settled := s.registry.map (fun p =>
            (p.1, Outcome.rejected (jsOrDefault d.error "Error en el pago"))),
          busCalls := busTargets s.eventListeners "error", raised := false }
    ∧ messageHandler s origin (some { type := some "PAYMENT_CANCEL", data := some d })
      = { state := { s with registry := [] },
          settled := s.registry.map (fun p =>
            (p.1, Outcome.rejected "Pago cancelado por el usuario")),
          busCalls := busTargets s.eventListeners "cancel", raised := false } := by
  refine ⟨?_, ?_, ?_⟩ <;>
    rw [messageHandler_matched s origin _ horigin] <;> rfl

/-- The notification whose `reference` is `"R123"`. -/
def sampleData : MessageData := { reference := some "R123", error := none }

/-- Witness for `broker_broadcast` on the one-pending-session engine. -/
theorem broker_broadcast_wit :
    messageHandler sampleState "https://venepagos.com.ve"
        (some { type := some "PAYMENT_SUCCESS", data := some sampleData })
      = { state := { sampleState with registry := [] },
          settled := sampleState.registry.map
            (fun p => (p.1, Outcome.resolved sampleData.reference false)),
          busCalls := busTargets sampleState.eventListeners "success",
          raised := false } :=
  (broker_broadcast sampleState "https://venepagos.com.ve" sampleData
    (by decide)).1

/-- C6 counterexample: a matching-origin `PAYMENT_SUCCESS` whose payload
lacks the `data` field, arriving while a session is pending, makes the
handler raise (the unguarded `data.reference` access) — the claim says
processing always completes without raising. -/
theorem malformed_body_raises :
    (messageHandler sampleState "https://venepagos.com.ve"
        (some { type := some "PAYMENT_SUCCESS", data := none })).raised = true := by
  decide

/-- C6 amended: the handler tolerates a missing message body entirely, any
payload whose `data` field is present, a `PAYMENT_CANCEL` without `data`,
and a `PAYMENT_SUCCESS`/`PAYMENT_ERROR` without `data` when no session is
pending; but a `PAYMENT_SUCCESS` or `PAYMENT_ERROR` lacking `data` raises
exactly when the registry is non-empty. -/
theorem malformed_body_behaviour (s : EngineState) (origin : String)
    (horigin : stringIncludes origin "venepagos" = true) :
    (messageHandler s origin none).raised = false
    ∧ (∀ t : Option String, ∀ d : MessageData,
        (messageHandler s origin (some { type := t, data := some d })).raised = false)
    ∧ (messageHandler s origin
        (some { type := some "PAYMENT_CANCEL", data := none })).raised = false
    ∧ (messageHandler s origin
        (some { type := some "PAYMENT_SUCCESS", data := none })).raised
        = !s.registry.isEmpty
    ∧ (messageHandler s origin
        (some { type := some "PAYMENT_ERROR", data := none })).raised
        = !s.registry.isEmpty := by
  refine ⟨?_, ?_, ?_, ?_, ?_⟩
  · rw [messageHandler_matched s origin _ horigin]
    rfl
  · intro t d
    rw [messageHandler_matched s origin _ horigin]
    show (routeMessage s t (some d)).raised = false
    unfold routeMessage
    split <;> rfl
  · rw [messageHandler_matched s origin _ horigin]
    rfl
  · rw [messageHandler_matched s origin _ horigin]
    show (handlePaymentSuccess s none).raised = !s.registry.isEmpty
    unfold handlePaymentSuccess
    cases h : s.registry.isEmpty <;> simp [h]
  · rw [messageHandler_matched s origin _ horigin]
    show (handlePaymentError s none).raised = !s.registry.isEmpty
    unfold handlePaymentError
    cases h : s.registry.isEmpty <;> simp [h]

/-- Witness for `malformed_body_behaviour` on the sample engine. -/
theorem malformed_body_behaviour_wit :
    (messageHandler sampleState "https://venepagos.com.ve" none).raised = false
    ∧ (messageHandler sampleState "https://venepagos.com.ve"
        (some { type := some "PAYMENT_CANCEL", data := none })).raised = false
    ∧ (messageHandler sampleState "https://venepagos.com.ve"
        (some { type := some "WHATEVER", data := some sampleData })).raised = false :=
  ⟨(malformed_body_behaviour sampleState "https://venepagos.com.ve" (by decide)).1,
   (malformed_body_behaviour sampleState "https://venepagos.com.ve" (by decide)).2.2.1,
   (malformed_body_behaviour sampleState "https://venepagos.com.ve" (by decide)).2.1
      (some "WHATEVER") sampleData⟩

/-- C2 counterexample: with one pending session, `closeAllPaymentWindows`
(and `destroy`) settle **no** promise — the claim that every pending
session's caller-facing promise is settled at teardown is false. -/
theorem teardown_counterexample :
    sampleState.registry ≠ []
    ∧ (closeAllPaymentWindows sampleState).settled = []
    ∧ (destroy sampleState).settled = [] := by
  decide

/-- C2 amended: teardown force-closes every tracked window of a registered
session and empties the registry (and `destroy` additionally clears the
subscriber list and detaches the message listener), but it settles no
promise at all: previously pending sessions' promises are left permanently
unsettled — every later settlement source fires as a no-op because the ids
are gone from the registry. -/
theorem teardown_no_settlement (s : EngineState) :
    (closeAllPaymentWindows s).settled = []
    ∧ (closeAllPaymentWindows s).state.registry = []
    ∧ (∀ id : Nat, hasSession s.registry id = true →
        hasWindow s.windows id = true →
        windowClosed (closeAllPaymentWindows s).state.windows id = true)
    ∧ (destroy s).settled = []
    ∧ (destroy s).state.registry = []
    ∧ (destroy s).state.eventListeners = []
    ∧ (destroy s).state.messageListenerActive = false
    ∧ (∀ id : Nat, ∀ src : SettleSource,
        settleCount id
          (runSource (closeAllPaymentWindows s).state id src).settled = 0) := by
  refine ⟨rfl, rfl, ?_, rfl, rfl, rfl, rfl, ?_⟩
  · intro id hreg hwin
    exact windowClosed_closeAllAux s.registry s.windows id hreg hwin
  · intro id src
    exact settleCount_runSource_absent _ id src rfl

/-- Witness for `teardown_no_settlement` on the one-pending-session
engine. -/
theorem teardown_no_settlement_wit :
    (closeAllPaymentWindows sampleState).settled = []
    ∧ windowClosed (closeAllPaymentWindows sampleState).state.windows 1 = true
    ∧ settleCount 1 (runSource (closeAllPaymentWindows sampleState).state 1
        SettleSource.poll).settled = 0 :=
  ⟨(teardown_no_settlement sampleState).1,
   (teardown_no_settlement sampleState).2.2.1 1 (by decide) (by decide),
   (teardown_no_settlement sampleState).2.2.2.2.2.2.2 1 SettleSource.poll⟩

/-- C7: if a session is still registered when its 30-minute deadline timer
fires, the timer rejects its promise with the timeout error, force-closes
its window, removes it from the registry and clears the poll interval —
and afterwards the poll loop performs no further closure checks for that
session (the next tick is a complete no-op). -/
theorem deadline_timeout (s : EngineState) (id : Nat)
    (hsched : id ∈ s.deadlinePending)
    (hreg : hasSession s.registry id = true)
    (hwin : hasWindow s.windows id = true) :
    (deadlineFire s id).settled
        = [(id, Outcome.rejected "Timeout: El pago excedió el tiempo límite")]
    ∧ windowClosed (deadlineFire s id).state.windows id = true
    ∧ hasSession (deadlineFire s id).state.registry id = false
    ∧ id ∉ (deadlineFire s id).state.pollActive
    ∧ checkClosedTick (deadlineFire s id).state id
        = noop (deadlineFire s id).state := by
  have h1 : deadlineFire s id =
      { state :=
          { s with
            deadlinePending := s.deadlinePending.filter (fun x => decide (x ≠ id)),
            pollActive := s.pollActive.filter (fun x => decide (x ≠ id)),
            windows := closeWindow s.windows id,
            registry := deleteSession s.registry id },
        settled := [(id, Outcome.rejected "Timeout: El pago excedió el tiempo límite")],
        busCalls := [], raised := false } := by
    simp only [deadlineFire]
    split_ifs
    rfl
  have hnot : id ∉ (deadlineFire s id).state.pollActive := by
    rw [h1]
    intro hmem
    rcases List.mem_filter.mp hmem with ⟨-, hx⟩
    exact (of_decide_eq_true hx) rfl
  refine ⟨by rw [h1], ?_, ?_, hnot, ?_⟩
  · rw [h1]
    exact windowClosed_closeWindow s.windows id hwin
  · rw [h1]
    exact hasSession_deleteSession _ _
  · unfold checkClosedTick
    rw [if_neg hnot]

/-- Witness for `deadline_timeout` on the one-pending-session engine. -/
theorem deadline_timeout_wit :
    (deadlineFire sampleState 1).settled
        = [(1, Outcome.rejected "Timeout: El pago excedió el tiempo límite")]
    ∧ windowClosed (deadlineFire sampleState 1).state.windows 1 = true
    ∧ hasSession (deadlineFire sampleState 1).state.registry 1 = false
    ∧ 1 ∉ (deadlineFire sampleState 1).state.pollActive
    ∧ checkClosedTick (deadlineFire sampleState 1).state 1
        = noop (deadlineFire sampleState 1).state :=
  deadline_timeout sampleState 1 (by decide) (by decide) (by decide)

/-- C8: when the poll tick finds the window of a still-registered session
closed, the promise is rejected with the user-closed error exactly when the
last-known-reference slot is empty (absent, or the degenerate empty string,
which JavaScript truthiness treats as no value); when the slot holds a
reference the promise is instead resolved as closed-manually with that
reference and the slot is cleared in the same step; either way the session
leaves the registry. -/
theorem manual_close_outcome (s : EngineState) (id : Nat)
    (hpoll : id ∈ s.pollActive)
    (hclosed : windowClosed s.windows id = true)
    (hreg : hasSession s.registry id = true) :
    ((checkClosedTick s id).settled
        = [(id, Outcome.rejected "Ventana de pago cerrada por el usuario")]
      ↔ jsTruthyStr s.storedReference = false)
    ∧ (∀ r : String, s.storedReference = some r → r ≠ "" →
        (checkClosedTick s id).settled = [(id, Outcome.resolved (some r) true)]
        ∧ (checkClosedTick s id).state.storedReference = none)
    ∧ (s.storedReference = none →
        (checkClosedTick s id).settled
          = [(id, Outcome.rejected "Ventana de pago cerrada por el usuario")])
    ∧ hasSession (checkClosedTick s id).state.registry id = false := by
  have htick_t : jsTruthyStr s.storedReference = true →
      checkClosedTick s id =
        { state :=
            { s with
              pollActive := s.pollActive.filter (fun x => decide (x ≠ id)),
              registry := deleteSession s.registry id,
              storedReference := none },
          settled := [(id, Outcome.resolved s.storedReference true)],
          busCalls := [], raised := false } := by
    intro ht
    simp only [checkClosedTick]
    split_ifs
    rfl
  have htick_f : jsTruthyStr s.storedReference = false →
      checkClosedTick s id =
        { state :=
            { s with
              pollActive := s.pollActive.filter (fun x => decide (x ≠ id)),
              registry := deleteSession s.registry id },
          settled := [(id, Outcome.rejected "Ventana de pago cerrada por el usuario")],
          busCalls := [], raised := false } := by
    intro ht
    simp only [checkClosedTick]
    split_ifs with h
    · simp [ht] at h
    · rfl
  refine ⟨?_, ?_, ?_, ?_⟩
  · cases ht : jsTruthyStr s.storedReference
    · rw [htick_f ht]
      simp
    · rw [htick_t ht]
      simp
  · intro r hr hne
    have ht : jsTruthyStr s.storedReference = true := by
      rw [hr]
      cases he : r.isEmpty
      · simp [jsTruthyStr, he]
      · exact absurd ((String.isEmpty_iff r).mp he) hne
    rw [htick_t ht]
    exact ⟨by simp [hr], rfl⟩
  · intro hnone
    have ht : jsTruthyStr s.storedReference = false := by
      rw [hnone]
      rfl
    rw [htick_f ht]
  · cases ht : jsTruthyStr s.storedReference
    · rw [htick_f ht]
      exact hasSession_deleteSession _ _
    · rw [htick_t ht]
      exact hasSession_deleteSession _ _

/-- A pending session whose window the user just closed, with a stashed
last-known reference `"R123"`. -/
def closedState : EngineState :=
  { registry := [(1, sampleEntry)], windows := [(1, true)],
    pollActive := [1], deadlinePending := [1], eventListeners := [],
    storedReference := some "R123", messageListenerActive := true }

/-- Witness for `manual_close_outcome`: the stashed reference is consumed
and reported as an implicit success. -/
theorem manual_close_outcome_wit :
    ((checkClosedTick closedState 1).settled
        = [(1, Outcome.resolved (some "R123") true)]
      ∧ (checkClosedTick closedState 1).state.storedReference = none)
    ∧ hasSession (checkClosedTick closedState 1).state.registry 1 = false :=
  ⟨(manual_close_outcome closedState 1 (by decide) (by decide) (by decide)).2.1
      "R123" rfl (by decide),
   (manual_close_outcome closedState 1 (by decide) (by decide) (by decide)).2.2.2⟩

end VenePagos
